import Mathlib

/-!
Verification of the inbound pipeline of the Rocket.Chat channel plugin.

The definitions below are shallow embeddings of the functions of the program:
the dedup cache (createDedupeCache), the allow-list normalization and
sender check (normalizeAllowEntry, normalizeAllowList, isSenderAllowed),
the group access-control block of handleMessage, the debouncer policy
(shouldDebounce) and merge step (onFlush), the onchar trigger helpers
(resolveOncharPrefixes, stripOncharPrefix) with the mention gate of
handleMessage, the TTL metadata caches (resolveRoomInfo, resolveUserInfo),
and the DDP realtime connection event handlers (createRealtimeConnection).
JavaScript Maps are modelled as insertion-ordered association lists,
timestamps as Int milliseconds, and nullable fields as Option.
-/

/-! ### String primitives

The JavaScript string operations used by the embedded code, implemented
over the character list of a String so that concrete instances compute. -/

/-- JavaScript trimStart. -/
def jsTrimStart (s : String) : String := String.mk (s.data.dropWhile Char.isWhitespace)

/-- JavaScript trimEnd. -/
def jsTrimEnd (s : String) : String := String.mk ((s.data.reverse.dropWhile Char.isWhitespace).reverse)

/-- JavaScript trim. -/
def jsTrim (s : String) : String := jsTrimEnd (jsTrimStart s)

/-- JavaScript startsWith. -/
def jsStartsWith (s p : String) : Bool := p.data.isPrefixOf s.data

/-- JavaScript slice(n) for nonnegative n. -/
def jsDrop (s : String) (n : Nat) : String := String.mk (s.data.drop n)

/-- JavaScript toLowerCase (over the basic latin range). -/
def jsToLower (s : String) : String := String.mk (s.data.map Char.toLower)

/-! ### Dedup cache (createDedupeCache in accounts.ts) -/

/-- The dedup cache state: a JS Map from key to last-seen timestamp,
modelled as an insertion-ordered association list. -/
abbrev DedupState := List (String × Int)

/-- Options of createDedupeCache. -/
structure DedupOpts where
  ttlMs : Int
  maxSize : Nat
deriving DecidableEq

/-- cache.delete(key): remove the entry with the given key. -/
def eraseKey (s : DedupState) (k : String) : DedupState :=
  s.filter (fun e => e.1 != k)

/-- The prune loop: delete every entry whose timestamp is older than the cutoff. -/
def pruneExpired (s : DedupState) (cutoff : Int) : DedupState :=
  s.filter (fun e => !(decide (e.2 < cutoff)))

/-- The eviction loop: while the size exceeds maxSize, delete the
oldest-inserted entry (the front of the insertion order). -/
def evictOldest (s : DedupState) (maxSize : Nat) : DedupState :=
  s.drop (s.length - maxSize)

/-- check(key, now) of createDedupeCache: returns whether the key was seen
within the TTL, and the updated cache state.  A falsy (empty) key returns
false without touching the state.  Otherwise the key is deleted and
re-inserted at the back with the current timestamp; on the not-seen path,
if the size exceeds maxSize the cache first prunes entries older than the
TTL and then evicts oldest entries until back under the bound. -/
def dedupeCheck (o : DedupOpts) (s : DedupState) (key : String) (now : Int) : Bool × DedupState :=
  if key = "" then (false, s)
  else
    let fresh : Bool :=
      match s.lookup key with
      | some existing => decide (now - existing < o.ttlMs)
      | none => false
    if fresh then
      (true, eraseKey s key ++ [(key, now)])
    else
      let s1 := eraseKey s key ++ [(key, now)]
      let s2 :=
        if s1.length > o.maxSize then
          evictOldest (pruneExpired s1 (now - o.ttlMs)) o.maxSize
        else s1
      (false, s2)

/-- RECENT_MESSAGE_TTL_MS = 5 * 60_000. -/
def RECENT_MESSAGE_TTL_MS : Int := 5 * 60000

/-- RECENT_MESSAGE_MAX = 2000. -/
def RECENT_MESSAGE_MAX : Nat := 2000

/-- The options of the recentInboundMessages dedupe cache instance. -/
def recentOpts : DedupOpts := ⟨RECENT_MESSAGE_TTL_MS, RECENT_MESSAGE_MAX⟩

/-- check on the recentInboundMessages instance. -/
def recentCheck (s : DedupState) (key : String) (now : Int) : Bool × DedupState :=
  dedupeCheck recentOpts s key now

/-- Run a sequence of check calls on the recentInboundMessages instance,
starting from the empty cache, returning the final cache state. -/
def runChecksRecent (calls : List (String × Int)) : DedupState :=
  calls.foldl (fun s c => (dedupeCheck recentOpts s c.1 c.2).2) []

/-! ### Allow-list normalization and sender check (accounts.ts) -/

/-- The one-shot case-insensitive replace of the leading rocketchat: or
user: tag, mirroring replace of the anchored alternation. -/
def stripAllowTag (s : String) : String :=
  if jsStartsWith (jsToLower s) "rocketchat:" then jsDrop s 11
  else if jsStartsWith (jsToLower s) "user:" then jsDrop s 5
  else s

/-- normalizeAllowEntry: trim; keep "" and "*" verbatim; otherwise strip a
leading rocketchat:/user: tag and a leading at-sign, then lowercase. -/
def normalizeAllowEntry (entry : String) : String :=
  let trimmed := jsTrim entry
  if trimmed = "" then ""
  else if trimmed = "*" then "*"
  else
    let p1 := stripAllowTag trimmed
    let p2 := if jsStartsWith p1 "@" then jsDrop p1 1 else p1
    jsToLower p2

/-- normalizeAllowList: normalize each entry, drop empties, dedup keeping
first occurrences (Array.from over a Set preserves insertion order). -/
def normalizeAllowList (entries : List String) : List String :=
  ((entries.map normalizeAllowEntry).filter (fun e => e != "")).eraseDups

/-- isSenderAllowed: an empty allow-list rejects; a wildcard entry accepts;
otherwise the normalized sender id or (truthy) display name must match an
entry.  senderName is optional and an empty name is treated as absent. -/
def isSenderAllowed (senderId : String) (senderName : Option String) (allowFrom : List String) : Bool :=
  if allowFrom.length = 0 then false
  else if allowFrom.contains "*" then true
  else
    let nId := normalizeAllowEntry senderId
    let nName :=
      match senderName with
      | some n => if n = "" then "" else normalizeAllowEntry n
      | none => ""
    allowFrom.any (fun e => e == nId || (nName != "" && e == nName))

/-! ### Room kinds and group access control (handleMessage in accounts.ts) -/

/-- ChatType values produced by roomKind. -/
inductive ChatKind
  | direct
  | group
  | channel
deriving DecidableEq

/-- roomKind: map the Rocket.Chat room type tag to a chat kind;
d is direct, p is group, l (livechat) is treated as direct,
c or anything else is channel. -/
def roomKind (roomType : Option String) : ChatKind :=
  match roomType with
  | none => .channel
  | some rt =>
    let t := jsToLower (jsTrim rt)
    if t = "d" then .direct
    else if t = "p" then .group
    else if t = "l" then .direct
    else .channel

/-- The group policy values. -/
inductive GroupPolicy
  | disabled
  | allowlist
  | openPolicy
deriving DecidableEq

/-- The effective group allow-list: the normalized groupAllowFrom config
entries (falling back to allowFrom when empty) unioned with the pairing
store entries, deduplicated preserving insertion order. -/
def effectiveGroupAllowFrom (configGroupAllowFrom configAllowFrom storeAllowFrom : List String) : List String :=
  ((if configGroupAllowFrom.length > 0 then configGroupAllowFrom else configAllowFrom)
    ++ storeAllowFrom).eraseDups

/-- The group access-control block of handleMessage: disabled drops all;
allowlist drops when the effective list is empty or the sender is not in
it; open lets the message continue to mention gating. -/
def groupAccessAllows (policy : GroupPolicy) (eff : List String)
    (senderId : String) (senderName : Option String) : Bool :=
  match policy with
  | .disabled => false
  | .allowlist =>
    if eff.length = 0 then false
    else isSenderAllowed senderId senderName eff
  | .openPolicy => true

/-! ### Message payloads (client.ts types) -/

/-- A file reference on a message. -/
structure RCFileRef where
  _id : String
  name : Option String
  type : Option String
deriving DecidableEq

/-- A URL-based attachment entry on a message. -/
structure RCAttachment where
  title : Option String
  title_link : Option String
  image_url : Option String
  audio_url : Option String
  video_url : Option String
  type : Option String
deriving DecidableEq

/-- The ts field: either a wrapped millisecond date or a date string. -/
inductive RCTimestamp
  | dateVal (ms : Int)
  | strVal (s : String)
deriving DecidableEq

/-- The sender reference on a message. -/
structure RCUserRef where
  _id : String
  username : Option String
  name : Option String
deriving DecidableEq

/-- RocketChatMessage: the inbound message payload. -/
structure RCMessage where
  _id : String
  rid : Option String
  msg : Option String
  ts : Option RCTimestamp
  u : Option RCUserRef
  tmid : Option String
  file : Option RCFileRef
  files : Option (List RCFileRef)
  attachments : Option (List RCAttachment)
  t : Option String
deriving DecidableEq

/-! ### Debouncer policy and flush merge (accounts.ts) -/

/-- An entry enqueued on the inbound debouncer. -/
structure FlushEntry where
  roomId : String
  msg : RCMessage
deriving DecidableEq

/-- shouldDebounce: messages carrying a file (file set or files nonempty)
are not debounced; empty-trimmed text is not debounced; control commands
(per the host-provided predicate) are not debounced; other text is. -/
def shouldDebounce (hasControlCommand : String → Bool) (m : RCMessage) : Bool :=
  if m.file.isSome || decide ((m.files.getD []).length > 0) then false
  else
    let text := (m.msg.map jsTrim).getD ""
    if text = "" then false
    else !(hasControlCommand text)

/-- onFlush: an empty batch does nothing; a single entry is delivered
as-is; several entries are merged into the message of the last entry with the
newline-join of the trimmed nonempty bodies and cleared file, files and
attachments fields.  The returned pair is the single handleMessage call. -/
def onFlushModel (entries : List FlushEntry) : Option (String × RCMessage) :=
  match entries.getLast? with
  | none => none
  | some last =>
    if entries.length = 1 then some (last.roomId, last.msg)
    else
      let combinedText := String.intercalate "\n"
        ((entries.map (fun e => ((e.msg.msg.map jsTrim).getD ""))).filter (fun b => b != ""))
      some (last.roomId,
        { last.msg with msg := some combinedText, file := none, files := none, attachments := none })

/-! ### Onchar trigger and mention gate (accounts.ts) -/

/-- DEFAULT_ONCHAR_PREFIXES. -/
def DEFAULT_ONCHAR_PREFIXES : List String := [">", "!"]

/-- resolveOncharPrefixes: trim the configured entries and drop empties;
fall back to the defaults when unset or all empty. -/
def resolveOncharPrefixes (prefixes : Option (List String)) : List String :=
  let cleaned :=
    match prefixes with
    | some ps => (ps.map jsTrim).filter (fun p => p != "")
    | none => DEFAULT_ONCHAR_PREFIXES
  if cleaned.length > 0 then cleaned else DEFAULT_ONCHAR_PREFIXES

/-- Result of stripOncharPrefix. -/
structure OncharResult where
  triggered : Bool
  stripped : String
deriving DecidableEq

/-- stripOncharPrefix: after trimming leading whitespace, the first
nonempty configured entry that the text starts with triggers; the stripped
body drops that entry and further leading whitespace. -/
def stripOncharPrefix (text : String) (prefixes : List String) : OncharResult :=
  let trimmed := jsTrimStart text
  match prefixes.find? (fun p => p != "" && jsStartsWith trimmed p) with
  | some p => ⟨true, jsTrimStart (jsDrop trimmed p.length)⟩
  | none => ⟨false, text⟩

/-- The inputs that the onchar/mention gate region of handleMessage reads.
Host-resolved facts (the require-mention setting, whether a bot username
is known, how many mention regexes are configured) are inputs. -/
structure GateInput where
  chatmode : Option String
  kind : ChatKind
  oncharPrefixes : Option (List String)
  rawText : String
  wasMentioned : Bool
  isControlCommand : Bool
  commandAuthorized : Bool
  requireMentionCfg : Bool
  botUsernameKnown : Bool
  mentionRegexCount : Nat
deriving DecidableEq

/-- Outcome of the gate region: either the message is only recorded into
rolling history and dropped, or processing proceeds with a body source. -/
inductive GateOutcome
  | recordHistoryOnly
  | proceed (bodySource : String)
deriving DecidableEq

/-- The onchar/mention gate region of handleMessage: under onchar mode in
a non-direct room, untriggered plain text is only recorded to history;
mention-required rooms likewise record-and-drop unless effectively
mentioned (real mention, authorized command bypass, or onchar trigger);
otherwise processing proceeds, with the body taken from the stripped
onchar text when triggered. -/
def mentionGate (inp : GateInput) : GateOutcome :=
  let oncharEnabled : Bool := inp.chatmode == some "onchar" && inp.kind != ChatKind.direct
  let oncharPs := if oncharEnabled then resolveOncharPrefixes inp.oncharPrefixes else []
  let oncharResult := if oncharEnabled then stripOncharPrefix inp.rawText oncharPs
    else ⟨false, inp.rawText⟩
  let oncharTriggered := oncharResult.triggered
  let shouldRequireMention : Bool := inp.kind != ChatKind.direct && inp.requireMentionCfg
  let shouldBypassMention : Bool :=
    inp.isControlCommand && shouldRequireMention && !inp.wasMentioned && inp.commandAuthorized
  let effectiveWasMentioned : Bool := inp.wasMentioned || shouldBypassMention || oncharTriggered
  let canDetectMention : Bool := inp.botUsernameKnown || inp.mentionRegexCount != 0
  if oncharEnabled && !oncharTriggered && !inp.wasMentioned && !inp.isControlCommand then
    .recordHistoryOnly
  else if inp.kind != ChatKind.direct && shouldRequireMention && canDetectMention
      && !effectiveWasMentioned then
    .recordHistoryOnly
  else
    .proceed (if oncharTriggered then oncharResult.stripped else inp.rawText)

/-! ### TTL metadata caches (resolveRoomInfo / resolveUserInfo) -/

/-- Map.set on an association list: replace in place when the key exists
(JS Maps keep the original insertion position), append otherwise. -/
def setEntry {α : Type} (c : List (String × α)) (k : String) (v : α) : List (String × α) :=
  if (c.lookup k).isSome then c.map (fun e => if e.1 = k then (k, v) else e)
  else c ++ [(k, v)]

/-- The shared shape of resolveRoomInfo and resolveUserInfo: return a
cached value while its expiry is in the future; otherwise fetch, caching
either the fetched value or the null sentinel (on fetch failure) with a
fresh expiry, and return it.  Fetch failures are caught and become none. -/
def resolveInfo {α : Type} (ttlMs : Int) (fetchFn : String → Except String α)
    (cache : List (String × (Option α × Int))) (id : String) (now : Int) :
    Option α × List (String × (Option α × Int)) :=
  let doFetch : Option α × List (String × (Option α × Int)) :=
    match fetchFn id with
    | .ok info => (some info, setEntry cache id (some info, now + ttlMs))
    | .error _ => (none, setEntry cache id (none, now + ttlMs))
  match cache.lookup id with
  | some cached => if now < cached.2 then (cached.1, cache) else doFetch
  | none => doFetch

/-- ROOM_CACHE_TTL_MS = 5 * 60_000. -/
def ROOM_CACHE_TTL_MS : Int := 5 * 60000

/-- USER_CACHE_TTL_MS = 10 * 60_000. -/
def USER_CACHE_TTL_MS : Int := 10 * 60000

/-- resolveRoomInfo over the room cache, with fetchChannel as the fetch. -/
def resolveRoomInfo {α : Type} (fetchChannel : String → Except String α)
    (cache : List (String × (Option α × Int))) (roomId : String) (now : Int) :
    Option α × List (String × (Option α × Int)) :=
  resolveInfo ROOM_CACHE_TTL_MS fetchChannel cache roomId now

/-- resolveUserInfo over the user cache, with fetchUser as the fetch. -/
def resolveUserInfo {α : Type} (fetchUser : String → Except String α)
    (cache : List (String × (Option α × Int))) (uid : String) (now : Int) :
    Option α × List (String × (Option α × Int)) :=
  resolveInfo USER_CACHE_TTL_MS fetchUser cache uid now

/-! ### Realtime DDP connection (realtime.ts) -/

/-- The error field of a DDP result frame: either a string value or an
object with an optional message (stringified otherwise). -/
inductive JsErrorVal
  | strVal (s : String)
  | objVal (message : Option String) (stringified : String)
deriving DecidableEq

/-- The error message extraction of the login-failure branch. -/
def errMsgOf : JsErrorVal → String
  | .objVal (some m) _ => m
  | .objVal none j => j
  | .strVal s => s

/-- A parsed DDP frame (DDPMessage in realtime.ts); fields.args elements
are untrusted and may be absent. -/
structure DDPFrame where
  msg : Option String
  id : Option String
  collection : Option String
  eventName : Option String
  args : Option (List (Option RCMessage))
  error : Option JsErrorVal
deriving DecidableEq

/-- How the createRealtimeConnection promise settled. -/
inductive Outcome
  | resolvedOk
  | rejectedErr (msg : String)
deriving DecidableEq

/-- The per-attempt connection state: the opened and authenticated flags,
the promise settlement, whether the watchdog timer is pending, whether the
abort listener is attached, whether the client ping loop is running,
whether the socket readyState is OPEN, and the DDP id counter. -/
structure ConnState where
  opened : Bool
  authenticated : Bool
  settled : Option Outcome
  watchdogSet : Bool
  abortAttached : Bool
  pingLoopActive : Bool
  sockOpen : Bool
  idCounter : Nat
deriving DecidableEq

/-- The state when createRealtimeConnection starts an attempt. -/
def initConnState : ConnState :=
  { opened := false, authenticated := false, settled := none, watchdogSet := false,
    abortAttached := true, pingLoopActive := false, sockOpen := false, idCounter := 0 }

/-- External events delivered to the handlers of the connection. -/
inductive WsEvent
  | openEv
  | messageEv (f : Option DDPFrame)
  | closeEv (code : Int) (reason : String)
  | errorEv (e : String)
  | abortEv
  | watchdogFire
  | pingTick
deriving DecidableEq

/-- Observable effects of the handlers: frames sent, socket close or
terminate calls, and invoked callbacks. -/
inductive WsAction
  | sendConnect
  | sendPong (id : Option String)
  | sendLogin (id : String) (token : String)
  | sendSub (id : String)
  | sendPing (id : String)
  | terminateSock
  | closeSock
  | cbMessage (roomId : String) (m : RCMessage)
  | cbConnected
  | cbDisconnected (code : Int) (reason : String)
  | cbError (e : String)
deriving DecidableEq

/-- nextDdpId output for a given counter value. -/
def ddpIdStr (n : Nat) : String := "openclaw-" ++ toString n

/-- ddpSend: frames are sent only while the socket readyState is OPEN. -/
def ddpSendActs (s : ConnState) (a : WsAction) : List WsAction :=
  if s.sockOpen then [a] else []

/-- First-settlement semantics of the promise: later resolves and rejects
are ignored. -/
def settleConn (s : ConnState) (o : Outcome) : ConnState :=
  match s.settled with
  | some _ => s
  | none => { s with settled := some o }

/-- One handler invocation of createRealtimeConnection: open sends the DDP
connect; every parsed or unparsed message resets the watchdog; ping is
answered with a pong carrying the same id; connected sends the login
method; the first result frame either rejects with the login-failure error
(clearing timers and the abort listener, without closing the socket) or
marks authenticated, fires onConnected, subscribes, and starts the client
ping loop; changed frames on the message stream dispatch onMessage unless
the room resolves to the sentinel; close clears timers, fires
onDisconnected, and resolves when the socket had opened, rejecting
otherwise; socket errors fire onError and start a graceful close; abort
and the watchdog force-terminate. -/
def stepConn (token : String) (s : ConnState) (e : WsEvent) : ConnState × List WsAction :=
  match e with
  | .openEv =>
    let s1 := { s with opened := true, sockOpen := true, watchdogSet := true }
    (s1, ddpSendActs s1 .sendConnect)
  | .messageEv none => ({ s with watchdogSet := true }, [])
  | .messageEv (some f) =>
    let s0 := { s with watchdogSet := true }
    if f.msg = some "ping" then
      (s0, ddpSendActs s0 (.sendPong f.id))
    else if f.msg = some "connected" then
      let s1 := { s0 with idCounter := s0.idCounter + 1 }
      (s1, ddpSendActs s1 (.sendLogin (ddpIdStr s1.idCounter) token))
    else if f.msg = some "result" ∧ s0.authenticated = false then
      (match f.error with
       | some ev =>
         let s1 := { s0 with watchdogSet := false, abortAttached := false }
         (settleConn s1 (.rejectedErr ("Rocket.Chat DDP login failed: " ++ errMsgOf ev)), [])
       | none =>
         let s1 := { s0 with authenticated := true, idCounter := s0.idCounter + 1 }
         let s2 := { s1 with pingLoopActive := true }
         (s2, [WsAction.cbConnected] ++ ddpSendActs s1 (.sendSub (ddpIdStr s1.idCounter))))
    else if f.msg = some "changed" ∧ f.collection = some "stream-room-messages" then
      (match f.args with
       | some (some m :: _) =>
         if m._id != "" then
           match (match m.rid with | some r => some r | none => f.eventName) with
           | some roomId =>
             if roomId != "" && roomId != "__my_messages__" then (s0, [.cbMessage roomId m])
             else (s0, [])
           | none => (s0, [])
         else (s0, [])
       | _ => (s0, []))
    else (s0, [])
  | .closeEv code reason =>
    let s1 := { s with watchdogSet := false, abortAttached := false, sockOpen := false, pingLoopActive := false }
    let s2 := settleConn s1
      (if s.opened then .resolvedOk
       else .rejectedErr ("Rocket.Chat WebSocket closed before open (code " ++ toString code ++ ")"))
    (s2, [.cbDisconnected code reason])
  | .errorEv err =>
    ({ s with sockOpen := false }, [.cbError err, .closeSock])
  | .abortEv =>
    if s.abortAttached then
      ({ s with watchdogSet := false, abortAttached := false, sockOpen := false }, [.terminateSock])
    else (s, [])
  | .watchdogFire =>
    if s.watchdogSet then
      ({ s with watchdogSet := false, sockOpen := false },
       [.cbError "DDP watchdog timeout — no traffic, terminating stale connection", .terminateSock])
    else (s, [])
  | .pingTick =>
    if s.pingLoopActive && s.sockOpen then
      let s1 := { s with idCounter := s.idCounter + 1 }
      (s1, [.sendPing (ddpIdStr s1.idCounter)])
    else (s, [])

/-- Run a connection attempt over a trace of events, accumulating the
emitted actions. -/
def runConn (token : String) (events : List WsEvent) : ConnState × List WsAction :=
  events.foldl (fun acc e =>
    let r := stepConn token acc.1 e
    (r.1, acc.2 ++ r.2)) (initConnState, [])

/-- A close or terminate call on the socket. -/
def isCloseLike : WsAction → Bool
  | .closeSock => true
  | .terminateSock => true
  | _ => false

/-- A connected handshake frame. -/
def connectedFrame : DDPFrame := ⟨some "connected", none, none, none, none, none⟩

/-- A login result frame carrying an error object. -/
def resultErrFrame : DDPFrame :=
  ⟨some "result", none, none, none, none, some (.objVal (some "Unauthorized") "err")⟩

/-- Trace: socket opens, server acknowledges, clean close before the login
result ever arrives. -/
def tr5 : List WsEvent := [.openEv, .messageEv (some connectedFrame), .closeEv 1000 "normal"]

/-- Trace: socket opens, server acknowledges, login result reports an error. -/
def tr6 : List WsEvent := [.openEv, .messageEv (some connectedFrame), .messageEv (some resultErrFrame)]

/-- The concrete entries of the counterexample batch: a body with
surrounding whitespace followed by a plain body. -/
def c4e1 : FlushEntry :=
  { roomId := "r1",
    msg := { _id := "m1", rid := some "r1", msg := some " hi ", ts := none, u := none,
             tmid := none, file := none, files := none, attachments := none, t := none } }

/-- The later entry of the counterexample batch. -/
def c4e2 : FlushEntry :=
  { roomId := "r1",
    msg := { _id := "m2", rid := some "r1", msg := some "yo", ts := none, u := none,
             tmid := none, file := none, files := none, attachments := none, t := none } }

/-- A message whose only attachment is a URL-based attachments entry. -/
def c3Msg : RCMessage :=
  { _id := "m3", rid := some "r1", msg := some "hello", ts := none, u := none, tmid := none,
    file := none, files := none,
    attachments := some [{ title := some "pic", title_link := none, image_url := some "/img.png",
                           audio_url := none, video_url := none, type := none }],
    t := none }

/-- A message carrying a file attachment. -/
def c3FileMsg : RCMessage :=
  { _id := "m4", rid := some "r1", msg := some "hello", ts := none, u := none, tmid := none,
    file := some { _id := "f1", name := some "doc.pdf", type := none }, files := none,
    attachments := none, t := none }

/-- Gate input: onchar mode in a channel, trigger-prefixed text, mention
required, no mention, no control command. -/
def c7InputA : GateInput :=
  { chatmode := some "onchar", kind := .channel, oncharPrefixes := none, rawText := "> hello",
    wasMentioned := false, isControlCommand := false, commandAuthorized := false,
    requireMentionCfg := true, botUsernameKnown := true, mentionRegexCount := 0 }

/-- The same gate input with the trigger removed from the text. -/
def c7InputB : GateInput :=
  { c7InputA with rawText := "hello" }

/-- A further onchar-triggered gate input used to instantiate the general
statement. -/
def c7InputC : GateInput :=
  { c7InputA with rawText := "!status" }

/-! ### Helper lemmas -/

/-- Looking up a key appended at the back succeeds when no earlier entry
has that key. -/
theorem lookup_append_single {α : Type} (l : List (String × α)) (k : String) (v : α)
    (h : ∀ e ∈ l, e.1 ≠ k) : (l ++ [(k, v)]).lookup k = some v := by
  induction l with
  | nil => simp [List.lookup]
  | cons hd tl ih =>
    obtain ⟨x, y⟩ := hd
    have hx : x ≠ k := h (x, y) (by simp)
    simp only [List.cons_append, List.lookup, beq_false_of_ne (Ne.symm hx)]
    exact ih (fun e he => h e (by simp [he]))

/-- A key with no match in the list looks up to none, elementwise. -/
theorem lookup_none_keys {α : Type} (l : List (String × α)) (k : String)
    (h : l.lookup k = none) : ∀ e ∈ l, e.1 ≠ k := by
  induction l with
  | nil => simp
  | cons hd tl ih =>
    obtain ⟨x, y⟩ := hd
    intro e he
    by_cases hx : k = x
    · subst hx; simp [List.lookup] at h
    · simp only [List.lookup, beq_false_of_ne hx] at h
      rcases List.mem_cons.mp he with rfl | he2
      · exact fun hc => hx hc.symm
      · exact ih h e he2

/-- Every entry surviving eraseKey has a different key. -/
theorem eraseKey_keys_ne (s : DedupState) (k : String) : ∀ e ∈ eraseKey s k, e.1 ≠ k := by
  intro e he
  have := (List.mem_filter.mp he).2
  simpa [bne_iff_ne] using this

/-- Erasing a key that is present strictly shrinks the list. -/
theorem eraseKey_length_lt (s : DedupState) (k : String) (v : Int)
    (h : s.lookup k = some v) : (eraseKey s k).length < s.length := by
  induction s with
  | nil => simp [List.lookup] at h
  | cons hd tl ih =>
    obtain ⟨x, y⟩ := hd
    by_cases hx : k = x
    · have hp : (((x, y).1 != k) = false) := by simp [bne_iff_ne, hx.symm]
      have h2 := List.length_filter_le (fun e => e.1 != k) tl
      simp only [eraseKey, List.filter_cons, hp, if_neg Bool.false_ne_true]
      simpa [eraseKey] using Nat.lt_succ_of_le h2
    · simp only [List.lookup, beq_false_of_ne hx] at h
      have h2 := ih h
      have hp : (((x, y).1 != k) = true) := by simpa [bne_iff_ne] using fun hc => hx hc.symm
      simp only [eraseKey, List.filter_cons, hp, if_pos rfl]
      simpa [eraseKey] using Nat.succ_lt_succ h2

/-- The eviction loop always lands at or under the bound. -/
theorem evictOldest_length_le (s : DedupState) (m : Nat) : (evictOldest s m).length ≤ m := by
  simp only [evictOldest, List.length_drop]
  omega

/-- The return value of check is determined by the looked-up timestamp
against the TTL. -/
theorem dedupeCheck_fst (o : DedupOpts) (s : DedupState) (k : String) (now : Int)
    (hk : k ≠ "") :
    (dedupeCheck o s k now).1 =
      (match s.lookup k with
       | some existing => decide (now - existing < o.ttlMs)
       | none => false) := by
  unfold dedupeCheck
  simp only [if_neg hk]
  cases hl : s.lookup k with
  | none => simp
  | some existing =>
    by_cases hlt : now - existing < o.ttlMs
    · simp [hlt]
    · simp [hlt]

/-- After any check on a nonempty key, the key is recorded at the call
time, provided the bound admits at least one entry. -/
theorem dedupeCheck_lookup_post (o : DedupOpts) (s : DedupState) (k : String) (now : Int)
    (hk : k ≠ "") (httl : 0 ≤ o.ttlMs) (hmax : 1 ≤ o.maxSize) :
    ((dedupeCheck o s k now).2).lookup k = some now := by
  have hbase : (eraseKey s k ++ [(k, now)]).lookup k = some now :=
    lookup_append_single _ _ _ (eraseKey_keys_ne s k)
  unfold dedupeCheck
  simp only [if_neg hk]
  cases hl : s.lookup k with
  | none =>
    simp only []
    split
    · exact hbase
    · split
      · -- over the bound: prune then evict
        have hkeep : (!(decide (now < now - o.ttlMs))) = true := by
          simp only [Bool.not_eq_true']
          exact decide_eq_false (by omega)
        have hsplit : pruneExpired (eraseKey s k ++ [(k, now)]) (now - o.ttlMs)
            = pruneExpired (eraseKey s k) (now - o.ttlMs) ++ [(k, now)] := by
          simp [pruneExpired, List.filter_append, hkeep]
        rw [hsplit]
        set l2 := pruneExpired (eraseKey s k) (now - o.ttlMs) with hl2
        have hn : (l2 ++ [(k, now)]).length - o.maxSize ≤ l2.length := by
          simp [List.length_append]
          omega
        unfold evictOldest
        rw [List.drop_append_of_le_length hn]
        refine lookup_append_single _ _ _ ?_
        intro e he
        have he2 : e ∈ l2 := List.drop_subset _ _ he
        have he3 : e ∈ eraseKey s k := (List.mem_filter.mp he2).1
        exact eraseKey_keys_ne s k e he3
      · exact hbase
  | some existing =>
    by_cases hlt : now - existing < o.ttlMs
    · simp only [decide_eq_true hlt]
      simpa using hbase
    · simp only [decide_eq_false hlt]
      split
      · exact hbase
      · split
        · have hkeep : (!(decide (now < now - o.ttlMs))) = true := by
            simp only [Bool.not_eq_true']
            exact decide_eq_false (by omega)
          have hsplit : pruneExpired (eraseKey s k ++ [(k, now)]) (now - o.ttlMs)
              = pruneExpired (eraseKey s k) (now - o.ttlMs) ++ [(k, now)] := by
            simp [pruneExpired, List.filter_append, hkeep]
          rw [hsplit]
          set l2 := pruneExpired (eraseKey s k) (now - o.ttlMs) with hl2
          have hn : (l2 ++ [(k, now)]).length - o.maxSize ≤ l2.length := by
            simp [List.length_append]
            omega
          unfold evictOldest
          rw [List.drop_append_of_le_length hn]
          refine lookup_append_single _ _ _ ?_
          intro e he
          have he2 : e ∈ l2 := List.drop_subset _ _ he
          have he3 : e ∈ eraseKey s k := (List.mem_filter.mp he2).1
          exact eraseKey_keys_ne s k e he3
        · exact hbase

/-- One check call preserves the size bound. -/
theorem dedupeCheck_length_le (o : DedupOpts) (s : DedupState) (k : String) (now : Int)
    (h : s.length ≤ o.maxSize) : ((dedupeCheck o s k now).2).length ≤ o.maxSize := by
  unfold dedupeCheck
  by_cases hk : k = ""
  · simpa [hk] using h
  simp only [if_neg hk]
  cases hl : s.lookup k with
  | none =>
    split
    · -- impossible fresh branch when the key is absent
      rename_i hfresh
      simp at hfresh
    · split
      · exact evictOldest_length_le _ _
      · rename_i hle
        have := Nat.not_lt.mp hle
        simpa using this
  | some existing =>
    by_cases hlt : now - existing < o.ttlMs
    · simp only [decide_eq_true hlt]
      split
      · have h1 := eraseKey_length_lt s k existing hl
        simp only [List.length_append, List.length_cons, List.length_nil]
        omega
      · rename_i hfresh
        simp at hfresh
    · simp only [decide_eq_false hlt]
      split
      · rename_i hfresh
        simp at hfresh
      · split
        · exact evictOldest_length_le _ _
        · rename_i hle
          have := Nat.not_lt.mp hle
          simpa using this

/-- Folding check calls preserves the size bound. -/
theorem runChecks_foldl_le (calls : List (String × Int)) :
    ∀ s : DedupState, s.length ≤ recentOpts.maxSize →
      (calls.foldl (fun s c => (dedupeCheck recentOpts s c.1 c.2).2) s).length
        ≤ recentOpts.maxSize := by
  induction calls with
  | nil => intro s h; simpa using h
  | cons c rest ih =>
    intro s h
    exact ih _ (dedupeCheck_length_le recentOpts s c.1 c.2 h)

/-- C1: on the recentInboundMessages dedupe cache (TTL five minutes), a
check on a key with no fresh record returns false and records the key at
the call time; a second check less than the TTL later returns true, and
one at least the TTL later (with no intervening traffic) returns false;
moreover every check on a nonempty key re-records it at the current time. -/
theorem dedupe_c1 (s : DedupState) (k : String) (t1 t2 : Int) (hk : k ≠ "")
    (hfirst : ∀ t0, s.lookup k = some t0 → RECENT_MESSAGE_TTL_MS ≤ t1 - t0) :
    (recentCheck s k t1).1 = false
    ∧ ((recentCheck s k t1).2).lookup k = some t1
    ∧ (t2 - t1 < RECENT_MESSAGE_TTL_MS → (recentCheck (recentCheck s k t1).2 k t2).1 = true)
    ∧ (RECENT_MESSAGE_TTL_MS ≤ t2 - t1 → (recentCheck (recentCheck s k t1).2 k t2).1 = false)
    ∧ (∀ (s2 : DedupState) (now : Int), ((recentCheck s2 k now).2).lookup k = some now) := by
  have httl : (0 : Int) ≤ recentOpts.ttlMs := by norm_num [recentOpts, RECENT_MESSAGE_TTL_MS]
  have hmax : 1 ≤ recentOpts.maxSize := by norm_num [recentOpts, RECENT_MESSAGE_MAX]
  have hpost : ∀ (s2 : DedupState) (now : Int),
      ((recentCheck s2 k now).2).lookup k = some now := by
    intro s2 now
    exact dedupeCheck_lookup_post recentOpts s2 k now hk httl hmax
  have httlEq : recentOpts.ttlMs = RECENT_MESSAGE_TTL_MS := rfl
  refine ⟨?_, hpost s t1, ?_, ?_, hpost⟩
  · rw [recentCheck, dedupeCheck_fst recentOpts s k t1 hk]
    cases hl : s.lookup k with
    | none => simp
    | some t0 =>
      have := hfirst t0 hl
      simp only [httlEq]
      exact decide_eq_false (by omega)
  · intro hlt
    rw [recentCheck, dedupeCheck_fst recentOpts _ k t2 hk, hpost s t1]
    simp only [httlEq]
    exact decide_eq_true hlt
  · intro hge
    rw [recentCheck, dedupeCheck_fst recentOpts _ k t2 hk, hpost s t1]
    simp only [httlEq]
    exact decide_eq_false (by omega)

/-- Witness for C1 at a concrete key and times. -/
theorem dedupe_c1_witness :
    (recentCheck [] "m1" 0).1 = false
    ∧ (recentCheck (recentCheck [] "m1" 0).2 "m1" 100).1 = true := by
  have h := dedupe_c1 [] "m1" 0 100 (by decide) (by intro t0 h0; simp [List.lookup] at h0)
  exact ⟨h.1, h.2.2.1 (by decide)⟩

/-- C2: after any sequence of check calls with any keys and timestamps,
starting from the empty cache, the recentInboundMessages dedupe cache
holds at most RECENT_MESSAGE_MAX = 2000 entries. -/
theorem dedupe_c2 (calls : List (String × Int)) : (runChecksRecent calls).length ≤ 2000 := by
  have h := runChecks_foldl_le calls [] (by simp)
  simpa [runChecksRecent, recentOpts, RECENT_MESSAGE_MAX] using h

/-- C10: isSenderAllowed rejects every sender when the allow-list is
empty; it accepts every sender (any id, any display name) when the list
contains the wildcard entry; and normalizeAllowEntry keeps the wildcard
verbatim.  Both the DM and the group checks go through this predicate. -/
theorem isSenderAllowed_c10 (senderId : String) (senderName : Option String)
    (allow : List String) (hstar : allow.contains "*" = true) :
    isSenderAllowed senderId senderName [] = false
    ∧ isSenderAllowed senderId senderName allow = true
    ∧ normalizeAllowEntry "*" = "*" := by
  refine ⟨by simp [isSenderAllowed], ?_, by decide⟩
  have hne : allow.length ≠ 0 := by
    intro h0
    rw [List.length_eq_zero] at h0
    subst h0
    simp at hstar
  unfold isSenderAllowed
  simp [hne, hstar]
  exact Or.inl (List.mem_of_elem_eq_true hstar)

/-- Witness for C10 at a concrete sender and wildcard list. -/
theorem isSenderAllowed_c10_witness :
    isSenderAllowed "u1" none [] = false ∧ isSenderAllowed "u1" none ["*"] = true :=
  ⟨(isSenderAllowed_c10 "u1" none ["*"] (by decide)).1,
   (isSenderAllowed_c10 "u1" none ["*"] (by decide)).2.1⟩

/-- C8: under the allowlist group policy, when the effective group
allow-list (config entries united with the pairing store) is empty, the
group access check rejects every sender before any dispatch. -/
theorem groupAllowlist_c8 (configGroup configAllow storeAllow : List String)
    (senderId : String) (senderName : Option String)
    (h : effectiveGroupAllowFrom configGroup configAllow storeAllow = []) :
    groupAccessAllows .allowlist (effectiveGroupAllowFrom configGroup configAllow storeAllow)
      senderId senderName = false := by
  rw [h]
  rfl

/-- Witness for C8 with empty config and store lists. -/
theorem groupAllowlist_c8_witness :
    groupAccessAllows .allowlist (effectiveGroupAllowFrom [] [] []) "alice" (some "Alice") = false :=
  groupAllowlist_c8 [] [] [] "alice" (some "Alice") (by decide)

/-- C3 amended: every event carrying a file attachment (the file field set
or a nonempty files list) is classified as not-debounced and therefore
flushed on its own; events whose only attachments are URL-based entries in
the attachments field are not exempted by that field (see the
counterexample). -/
theorem shouldDebounce_c3_amended (hasControlCommand : String → Bool) (m : RCMessage)
    (h : m.file.isSome = true ∨ 0 < (m.files.getD []).length) :
    shouldDebounce hasControlCommand m = false := by
  unfold shouldDebounce
  rcases h with h | h
  · simp [h]
  · simp [h]

/-- Witness for the amended C3 on a concrete file-carrying message. -/
theorem shouldDebounce_c3_witness : shouldDebounce (fun _ => false) c3FileMsg = false :=
  shouldDebounce_c3_amended (fun _ => false) c3FileMsg (Or.inl rfl)

/-- C3 counterexample: a message carrying one URL-based attachment, with
nonempty text and no control command, is classified as debounced, so an
event carrying an attachment of that kind can be batched. -/
theorem shouldDebounce_c3_counterexample :
    (c3Msg.attachments.getD []).length = 1
    ∧ shouldDebounce (fun _ => false) c3Msg = true := by
  exact ⟨by decide, by decide⟩

/-- C4 amended: a nonempty flushed batch makes exactly one processing
call; a single event is delivered as-is; several events are delivered as
the message of the most recent event with its text replaced by the
newline-join of the trimmed nonempty bodies in arrival order and its
file, files and attachments fields cleared. -/
theorem onFlush_c4_amended (entries : List FlushEntry) (h : entries ≠ []) :
    ∃ last, entries.getLast? = some last
      ∧ (entries.length = 1 → onFlushModel entries = some (last.roomId, last.msg))
      ∧ (entries.length ≠ 1 → onFlushModel entries = some (last.roomId,
          { last.msg with
            msg := some (String.intercalate "\n"
              ((entries.map (fun e => ((e.msg.msg.map jsTrim).getD ""))).filter (fun b => b != ""))),
            file := none, files := none, attachments := none })) := by
  obtain ⟨last, hlast⟩ := Option.isSome_iff_exists.mp (List.getLast?_isSome.mpr h)
  refine ⟨last, hlast, ?_, ?_⟩
  · intro hlen
    unfold onFlushModel
    rw [hlast]
    simp [hlen]
  · intro hlen
    unfold onFlushModel
    rw [hlast]
    simp [hlen]

/-- Witness for the amended C4 on a concrete two-entry batch. -/
theorem onFlush_c4_witness :
    onFlushModel [c4e1, c4e2]
      = some ("r1", { c4e2.msg with msg := some "hi\nyo", file := none, files := none, attachments := none }) := by
  obtain ⟨last, hlast, _, h2⟩ := onFlush_c4_amended [c4e1, c4e2] (by decide)
  have hl : List.getLast? [c4e1, c4e2] = some c4e2 := by decide
  have hlc : last = c4e2 := by
    rw [hl] at hlast
    exact (Option.some.inj hlast).symm
  subst hlc
  have h3 := h2 (by decide)
  rw [h3]
  decide

/-- C4 counterexample: for a batch whose first body carries surrounding
whitespace, the flushed text is the join of the trimmed bodies, which
differs from the newline-join of the bodies themselves. -/
theorem onFlush_c4_counterexample :
    (onFlushModel [c4e1, c4e2]).map (fun d => d.2.msg) = some (some "hi\nyo")
    ∧ String.intercalate "\n" [c4e1.msg.msg.getD "", c4e2.msg.msg.getD ""] = " hi \nyo"
    ∧ ("hi\nyo" : String) ≠ " hi \nyo" := by
  exact ⟨by decide, by decide, by decide⟩

/-- C7: under onchar mode in a non-direct conversation, any text that
triggers on a configured onchar entry is accepted and processed with the
trigger stripped; concretely the default-configured text takes body
"hello", while the same text without the trigger, with mention-required
enabled, no mention present, and no control command, is only recorded
into rolling history. -/
theorem mentionGate_c7 :
    (∀ inp : GateInput, inp.chatmode = some "onchar" → inp.kind ≠ ChatKind.direct →
      ( stripOncharPrefix inp.rawText (resolveOncharPrefixes inp.oncharPrefixes)).triggered = true →
      mentionGate inp
        = .proceed ( stripOncharPrefix inp.rawText (resolveOncharPrefixes inp.oncharPrefixes)).stripped)
    ∧ mentionGate c7InputA = .proceed "hello"
    ∧ mentionGate c7InputB = .recordHistoryOnly := by
  refine ⟨?_, by decide, by decide⟩
  intro inp h1 h2 h3
  have hb1 : (inp.chatmode == some "onchar") = true := by simp [h1]
  have hb2 : (inp.kind != ChatKind.direct) = true := by simpa [bne_iff_ne] using h2
  unfold mentionGate
  simp only [hb1, hb2, Bool.true_and, Bool.and_true, if_true, Bool.and_self]
  simp [h3]

/-- Witness instantiating the universal part of C7 at a concrete input. -/
theorem mentionGate_c7_witness :
    mentionGate c7InputC
      = .proceed ( stripOncharPrefix c7InputC.rawText (resolveOncharPrefixes c7InputC.oncharPrefixes)).stripped :=
  mentionGate_c7.1 c7InputC rfl (by decide) (by decide)

/-- C5 counterexample: on a clean close after the socket opened but
before authentication completed, the connection attempt resolves
successfully — the same outcome as a post-authentication close — rather
than with a distinct failure. -/
theorem realtime_c5_counterexample :
    (runConn "tok" tr5).1.authenticated = false
    ∧ (runConn "tok" tr5).1.settled = some Outcome.resolvedOk := by
  exact ⟨by decide, by decide⟩

/-- C5 amended: the close handler distinguishes on whether the socket
ever opened, not on authentication: a close before open rejects with a
distinct closed-before-open failure, while any close after open resolves
successfully, authenticated or not. -/
theorem realtime_c5_amended (token : String) (s : ConnState) (c : Int) (r : String)
    (h : s.settled = none) :
    (stepConn token s (.closeEv c r)).1.settled =
      some (if s.opened then Outcome.resolvedOk
        else .rejectedErr ("Rocket.Chat WebSocket closed before open (code " ++ toString c ++ ")")) := by
  simp [stepConn, settleConn, h]

/-- Witness for the amended C5: a close on a never-opened socket rejects. -/
theorem realtime_c5_witness :
    (stepConn "tok" initConnState (.closeEv 1006 "gone")).1.settled =
      some (Outcome.rejectedErr "Rocket.Chat WebSocket closed before open (code 1006)") := by
  have h := realtime_c5_amended "tok" initConnState 1006 "gone" rfl
  exact h.trans (by decide)

/-- C6 counterexample: a login result carrying an error rejects with the
login-failure message, but the handlers emit no socket close and no
terminate — the connection is not closed by this path. -/
theorem realtime_c6_counterexample :
    (runConn "tok" tr6).1.settled
        = some (Outcome.rejectedErr "Rocket.Chat DDP login failed: Unauthorized")
    ∧ (runConn "tok" tr6).2.all (fun a => !(isCloseLike a)) = true := by
  exact ⟨by decide, by decide⟩

/-- C6 amended: on a login result carrying an error (before
authentication, promise unsettled), the attempt rejects with the
distinguishable login-failure message and performs no further action at
all — in particular no retry of the login and also no socket close or
terminate; only the watchdog timer and the abort listener are cleaned. -/
theorem realtime_c6_amended (token : String) (s : ConnState) (f : DDPFrame) (ev : JsErrorVal)
    (hmsg : f.msg = some "result") (hauth : s.authenticated = false)
    (herr : f.error = some ev) (hset : s.settled = none) :
    (stepConn token s (.messageEv (some f))).1.settled
        = some (.rejectedErr ("Rocket.Chat DDP login failed: " ++ errMsgOf ev))
    ∧ (stepConn token s (.messageEv (some f))).2 = []
    ∧ (stepConn token s (.messageEv (some f))).1.watchdogSet = false
    ∧ (stepConn token s (.messageEv (some f))).1.abortAttached = false := by
  have hne1 : ¬ f.msg = some "ping" := by rw [hmsg]; simp
  have hne2 : ¬ f.msg = some "connected" := by rw [hmsg]; simp
  refine ⟨?_, ?_, ?_, ?_⟩ <;>
    simp [stepConn, settleConn, hne1, hne2, hmsg, hauth, herr, hset]

/-- Witness for the amended C6 at the initial state and a concrete error. -/
theorem realtime_c6_witness :
    (stepConn "tok" initConnState (.messageEv (some resultErrFrame))).1.settled
        = some (.rejectedErr ("Rocket.Chat DDP login failed: "
            ++ errMsgOf (.objVal (some "Unauthorized") "err"))) :=
  (realtime_c6_amended "tok" initConnState resultErrFrame
    (.objVal (some "Unauthorized") "err") rfl rfl rfl rfl).1

/-- Map.set records the value under the key, whether replacing or appending. -/
theorem lookup_setEntry {α : Type} (c : List (String × α)) (k : String) (v : α) :
    (setEntry c k v).lookup k = some v := by
  unfold setEntry
  split
  · rename_i hsome
    induction c with
    | nil => simp [List.lookup] at hsome
    | cons hd tl ih =>
      obtain ⟨x, y⟩ := hd
      by_cases hx : x = k
      · subst hx
        have hcond : ((x, y).1 = x) := rfl
        simp only [List.map_cons, if_pos hcond]
        simp [List.lookup]
      · have hk : ¬ k = x := fun hc => hx hc.symm
        simp only [List.map_cons, if_neg hx]
        simp only [List.lookup, beq_false_of_ne hk]
        apply ih
        simpa [List.lookup, beq_false_of_ne hk] using hsome
  · rename_i hnone
    have h0 : c.lookup k = none := by
      cases hl : c.lookup k with
      | none => rfl
      | some w => rw [hl] at hnone; simp at hnone
    exact lookup_append_single c k v (lookup_none_keys c k h0)

/-- C9: the metadata resolver (shared by resolveRoomInfo and
resolveUserInfo) returns a cached entry only while it is unexpired; an
expired or missing entry is re-fetched, never returned stale; and a
failed fetch is caught (never thrown past the boundary), yielding the
null sentinel which is cached with a fresh expiry. -/
theorem resolveInfo_c9 {α : Type} (ttl : Int) (fetchFn : String → Except String α)
    (cache : List (String × (Option α × Int))) (id : String) (now : Int) :
    (∀ v exp, cache.lookup id = some (v, exp) → now < exp →
      resolveInfo ttl fetchFn cache id now = (v, cache))
    ∧ (∀ v exp, cache.lookup id = some (v, exp) → exp ≤ now →
      (resolveInfo ttl fetchFn cache id now).1 =
        (match fetchFn id with | .ok w => some w | .error _ => none))
    ∧ ((∀ v exp, cache.lookup id = some (v, exp) → exp ≤ now) →
      ∀ err, fetchFn id = .error err →
        (resolveInfo ttl fetchFn cache id now).1 = none
        ∧ ((resolveInfo ttl fetchFn cache id now).2).lookup id = some (none, now + ttl)) := by
  refine ⟨?_, ?_, ?_⟩
  · intro v exp hl hfresh
    unfold resolveInfo
    rw [hl]
    simp [hfresh]
  · intro v exp hl hstale
    unfold resolveInfo
    rw [hl]
    have : ¬ now < exp := by omega
    simp only [if_neg this]
    cases hf : fetchFn id <;> simp
  · intro hstale err hf
    unfold resolveInfo
    cases hl : cache.lookup id with
    | none => simp [hf, lookup_setEntry]
    | some p =>
      obtain ⟨v, exp⟩ := p
      have : ¬ now < exp := by
        have := hstale v exp hl
        omega
      simp [this, hf, lookup_setEntry]

/-- Witness for C9: a failing fetch on an empty cache yields the null
sentinel and caches it. -/
theorem resolveInfo_c9_witness :
    (resolveInfo (α := Unit) 300000 (fun _ => .error "down") [] "room1" 50).1 = none
    ∧ ((resolveInfo (α := Unit) 300000 (fun _ => .error "down") [] "room1" 50).2).lookup "room1"
        = some (none, 300050) := by
  have h := (resolveInfo_c9 (α := Unit) 300000 (fun _ => Except.error "down") [] "room1" 50).2.2
    (by intro v e hve; simp [List.lookup] at hve) "down" rfl
  exact ⟨h.1, by rw [h.2]; norm_num⟩
